import Mathlib

/-!
Verification of the legacy session lifecycle manager of `arxiv-auth`
(`users/arxiv/users/legacy/sessions.py`).

Shallow embedding choices:
* All timestamps are epoch seconds as `Int`.  The source mixes a zoned
  `datetime.now(tz=EASTERN)` clock (cookie fast-path check, invalidation)
  with raw epoch-second values (`util.now()`, `util.epoch`); both reduce to
  seconds since the epoch at whole-second resolution, so a single `now : Int`
  stands for the clock reading of a call.
* The cookie codec (`cookies.pack` / `cookies.unpack`) is not part of the
  session module; `load` and `invalidate` receive the codec as a function
  argument `unpack : String → Except String Unpacked`, where `.error m`
  stands for an `InvalidCookie` fault carrying message `m`.
* The injected collaborators `util.compute_capabilities`, `get_endorsements`
  and `util.get_scopes` are likewise function arguments.
* The relational store is a `Store` record of row lists; SQLAlchemy queries
  with `.first()` become `List.find?`, and `session.merge` of an updated row
  becomes an in-place update of the first matching row.
* The store-assigned session identifier of `create` is the argument `newId`;
  a backend persistence fault in `create` is the argument
  `persistFault : Option String` (`some msg` = the transaction raised `msg`).
-/

namespace ArxivAuth

/-- `domain.UserFullName`. -/
structure UserFullName where
  forename : String
  surname : String
  suffix : String
deriving Repr, DecidableEq

/-- `domain.User` (the fields `sessions.py` reads and writes). -/
structure User where
  user_id : String
  username : String
  email : String
  name : UserFullName
  verified : Bool
deriving Repr, DecidableEq

/-- `domain.Authorizations`: classic capability bitset, endorsement
category→level mapping, scope strings. -/
structure Authorizations where
  classic : Int
  endorsements : List (String × Int)
  scopes : List String
deriving Repr, DecidableEq

/-- `domain.Session` as assembled by `load` and `create`. -/
structure Session where
  session_id : String
  start_time : Int
  end_time : Int
  user : User
  authorizations : Authorizations
deriving Repr, DecidableEq

/-- A `tapir_sessions` row (`DBSession` in `models`). -/
structure DBSession where
  session_id : String
  user_id : String
  last_reissue : Int
  start_time : Int
  end_time : Int
deriving Repr, DecidableEq

/-- A `tapir_users` row (the fields `sessions.py` reads). -/
structure DBUser where
  user_id : String
  email : String
  first_name : String
  last_name : String
  suffix_name : String
  flag_email_verified : Bool
deriving Repr, DecidableEq

/-- A `tapir_nicknames` row (the fields `sessions.py` reads). -/
structure DBUserNickname where
  user_id : String
  nickname : String
deriving Repr, DecidableEq

/-- A `tapir_sessions_audit` row as written by `create`. -/
structure DBSessionsAudit where
  session_id : String
  ip_addr : String
  remote_host : String
  tracking_cookie : String
deriving Repr, DecidableEq

/-- The relational store visible to the session module. -/
structure Store where
  sessions : List DBSession
  audits : List DBSessionsAudit
  users : List DBUser
  nicknames : List DBUserNickname
deriving Repr, DecidableEq

/-- The tuple returned by `cookies.unpack`:
`(session_id, user_id, ip, issued_at, expires_at, capabilities)`. -/
structure Unpacked where
  session_id : String
  user_id : String
  ip : String
  issued_at : Int
  expires_at : Int
  capabilities : String
deriving Repr, DecidableEq

/-- Faults `load` can surface: a propagated `InvalidCookie` from the codec,
`SessionExpired`, or `UnknownSession`. -/
inductive LoadErr where
  | invalidCookie (msg : String)
  | sessionExpired (msg : String)
  | unknownSession (msg : String)
deriving Repr, DecidableEq

/-- Faults of `invalidate` / `invalidate_by_id`: `UnknownSession`, with the
message of a chained cause (`raise ... from e`) when one exists. -/
inductive InvErr where
  | unknownSession (msg : String) (cause : Option String)
deriving Repr, DecidableEq

/-- Faults of `create`: `SessionCreationFailed` with its message. -/
inductive CreateErr where
  | sessionCreationFailed (msg : String)
deriving Repr, DecidableEq

/-- The authoritative expiry test of `load` (sessions.py:88):
`db_session.end_time != 0 and db_session.end_time < util.now()`. -/
def authExpired (r : DBSession) (now : Int) : Bool :=
  r.end_time != 0 && decide (r.end_time < now)

/-- The join-fetch of `load` (sessions.py:72-80): one row of
`query(DBUser, DBSession, DBUserNickname)` filtered on the cookie's user id
and session id, or `none`. -/
def findJoin (db : Store) (uid sid : String) :
    Option (DBUser × DBSession × DBUserNickname) :=
  match db.users.find? (fun r => r.user_id == uid),
        db.sessions.find? (fun r => r.user_id == uid && r.session_id == sid),
        db.nicknames.find? (fun r => r.user_id == uid) with
  | some du, some ds, some dn => some (du, ds, dn)
  | _, _, _ => none

/-- The `domain.User` value `load` assembles (sessions.py:92-102): user id
from the cookie, the rest from the joined user and nickname rows. -/
def mkUser (c : Unpacked) (du : DBUser) (dn : DBUserNickname) : User :=
  { user_id := c.user_id
    username := dn.nickname
    email := du.email
    name := { forename := du.first_name, surname := du.last_name,
              suffix := du.suffix_name }
    verified := du.flag_email_verified }

/-- The `domain.Authorizations` value `load` assembles (sessions.py:105-109)
from the injected collaborators. -/
def mkAuths (computeCaps : DBUser → Int)
    (getEndors : User → List (String × Int))
    (getScopes : DBUser → List String)
    (c : Unpacked) (du : DBUser) (dn : DBUserNickname) : Authorizations :=
  { classic := computeCaps du
    endorsements := getEndors (mkUser c du dn)
    scopes := getScopes du }

/-- Body of `load` after the cookie has been unpacked (sessions.py:69-115). -/
def loadDecoded (computeCaps : DBUser → Int)
    (getEndors : User → List (String × Int))
    (getScopes : DBUser → List String)
    (db : Store) (now : Int) (c : Unpacked) : Except LoadErr Session :=
  if c.expires_at ≤ now then
    .error (.sessionExpired ("Session " ++ c.session_id ++ " has expired"))
  else
    match findJoin db c.user_id c.session_id with
    | none => .error (.unknownSession "No such user or session")
    | some (du, ds, dn) =>
      if authExpired ds now then
        .error (.sessionExpired ("Session " ++ c.session_id ++ " has expired"))
      else
        .ok { session_id := ds.session_id, start_time := c.issued_at,
              end_time := c.expires_at, user := mkUser c du dn,
              authorizations := mkAuths computeCaps getEndors getScopes c du dn }

/-- `load(cookie)` (sessions.py:46-115).  Line 65 calls `cookies.unpack`
with no handler, so a codec fault leaves `load` as `.invalidCookie`. -/
def load (unpack : String → Except String Unpacked)
    (computeCaps : DBUser → Int)
    (getEndors : User → List (String × Int))
    (getScopes : DBUser → List String)
    (db : Store) (now : Int) (cookie : String) : Except LoadErr Session :=
  match unpack cookie with
  | .error m => .error (.invalidCookie m)
  | .ok c => loadDecoded computeCaps getEndors getScopes db now c

/-- `create(authorizations, ip, remote_host, tracking_cookie, user)`
(sessions.py:118-168).  `newId` is the store-assigned session id flowed back
from the insert; `persistFault = some msg` means the transaction block raised
an exception with message `msg`. -/
def create (auths : Authorizations) (ip remote_host tracking_cookie : String)
    (user : Option User) (now duration : Int) (db : Store) (newId : String)
    (persistFault : Option String) : Except CreateErr (Store × Session) :=
  match user with
  | none => .error (.sessionCreationFailed "Legacy sessions require a user")
  | some u =>
    match persistFault with
    | some msg => .error (.sessionCreationFailed ("Failed to create: " ++ msg))
    | none =>
      let row : DBSession :=
        { session_id := newId, user_id := u.user_id, last_reissue := now,
          start_time := now, end_time := 0 }
      let audit : DBSessionsAudit :=
        { session_id := newId, ip_addr := ip, remote_host := remote_host,
          tracking_cookie := tracking_cookie }
      .ok ({ db with sessions := db.sessions ++ [row],
                     audits := db.audits ++ [audit] },
           { session_id := newId, start_time := now,
             end_time := now + duration, user := u, authorizations := auths })

/-- `session.merge` of the row `_load` returned with its `end_time`
reassigned: update the first row whose `session_id` matches. -/
def setEnd (l : List DBSession) (sid : String) (e : Int) : List DBSession :=
  match l with
  | [] => []
  | s :: rest =>
    if s.session_id == sid then { s with end_time := e } :: rest
    else s :: setEnd rest sid e

/-- `invalidate_by_id(session_id)` (sessions.py:211-236): `_load` the row
(first match on `session_id`, else `UnknownSession`), set its `end_time` to
`now - 1` epoch seconds, merge it back. -/
def invalidate_by_id (db : Store) (now : Int) (sid : String) :
    Except InvErr Store :=
  match db.sessions.find? (fun r => r.session_id == sid) with
  | none => .error (.unknownSession "No such session" none)
  | some _ => .ok { db with sessions := setEnd db.sessions sid (now - 1) }

/-- `invalidate(cookie)` (sessions.py:188-208): unpack, turning an
`InvalidCookie` fault into `UnknownSession` chained from it, then delegate to
`invalidate_by_id` on the decoded session id. -/
def invalidate (unpack : String → Except String Unpacked)
    (db : Store) (now : Int) (cookie : String) : Except InvErr Store :=
  match unpack cookie with
  | .error m => .error (.unknownSession "No such session" (some m))
  | .ok c => invalidate_by_id db now c.session_id

/-! Concrete values used by witnesses and counterexamples. -/

/-- A sample user row (user 42). -/
def dbUser42 : DBUser :=
  { user_id := "42", email := "ada@example.org", first_name := "Ada",
    last_name := "Lovelace", suffix_name := "", flag_email_verified := true }

/-- A sample nickname row for user 42. -/
def dbNick42 : DBUserNickname := { user_id := "42", nickname := "ada" }

/-- A session row for user 42 with the unset end marker. -/
def dbSess7 : DBSession :=
  { session_id := "7", user_id := "42", last_reissue := 100,
    start_time := 100, end_time := 0 }

/-- A store holding user 42 and session 7. -/
def sampleStore : Store :=
  { sessions := [dbSess7], audits := [], users := [dbUser42],
    nicknames := [dbNick42] }

/-- A store like `sampleStore` but with no session rows yet. -/
def emptyStore : Store :=
  { sessions := [], audits := [], users := [dbUser42],
    nicknames := [dbNick42] }

/-- Cookie payload for session 7 of user 42, issued at 100, expiring 3700. -/
def unpacked7 : Unpacked :=
  { session_id := "7", user_id := "42", ip := "10.0.0.1", issued_at := 100,
    expires_at := 3700, capabilities := "6" }

/-- A codec that decodes every cookie to `unpacked7`. -/
def unpackOk7 : String → Except String Unpacked := fun _ => .ok unpacked7

/-- A codec on which every decode fails structurally. -/
def unpackFail : String → Except String Unpacked :=
  fun _ => .error "malformed cookie"

/-- Degenerate capability collaborator for concrete runs. -/
def caps0 : DBUser → Int := fun _ => 6

/-- Degenerate endorsement collaborator for concrete runs. -/
def endors0 : User → List (String × Int) := fun _ => []

/-- Degenerate scope collaborator for concrete runs. -/
def scopes0 : DBUser → List String := fun _ => []

/-- Sample authorizations value. -/
def auths0 : Authorizations := { classic := 6, endorsements := [], scopes := [] }

/-- Sample domain user 42. -/
def user42 : User :=
  { user_id := "42", username := "ada", email := "ada@example.org",
    name := { forename := "Ada", surname := "Lovelace", suffix := "" },
    verified := true }

/-- The audit row `create` writes for the sample run. -/
def auditRow7 : DBSessionsAudit :=
  { session_id := "7", ip_addr := "10.0.0.1", remote_host := "host",
    tracking_cookie := "" }

/-- The store after the sample `create` run. -/
def createdStore : Store :=
  { sessions := [dbSess7], audits := [auditRow7], users := [dbUser42],
    nicknames := [dbNick42] }

/-- The `Session` value the sample `create` / `load` runs return. -/
def createdSession : Session :=
  { session_id := "7", start_time := 100, end_time := 3700, user := user42,
    authorizations := auths0 }

/-- `sampleStore` after `invalidate_by_id` at clock 10. -/
def sampleStore9 : Store :=
  { sampleStore with sessions := [{ dbSess7 with end_time := 9 }] }

/-- `sampleStore` after a second `invalidate_by_id` at clock 20. -/
def sampleStore19 : Store :=
  { sampleStore with sessions := [{ dbSess7 with end_time := 19 }] }

/-- `sampleStore` with session 7 carrying a real stored end time 100. -/
def storeEnd100 : Store :=
  { sampleStore with sessions := [{ dbSess7 with end_time := 100 }] }

/-- `storeEnd100` after `invalidate_by_id` at clock 50. -/
def storeEnd49 : Store :=
  { sampleStore with sessions := [{ dbSess7 with end_time := 49 }] }

/-- A codec that fails on the cookie `"bad"` and accepts anything else. -/
def unpackMixed : String → Except String Unpacked :=
  fun s => if s == "bad" then .error "broken" else .ok unpacked7

/-- Cookie payload for session 7 presented by user 42. -/
def unpackedA : Unpacked :=
  { session_id := "7", user_id := "42", ip := "10.0.0.1", issued_at := 100,
    expires_at := 3700, capabilities := "6" }

/-- Cookie payload for the same session 7 presented by a different user
from a different address. -/
def unpackedB : Unpacked :=
  { session_id := "7", user_id := "99", ip := "192.168.0.9", issued_at := 50,
    expires_at := 3650, capabilities := "2" }

/-- A codec mapping cookie `"a"` to `unpackedA` and all else to `unpackedB`. -/
def unpackPair : String → Except String Unpacked :=
  fun s => if s == "a" then .ok unpackedA else .ok unpackedB

/-- The cookie payload the codec would produce for the sample created
session: expires-at = issued-at + configured duration (spec §4.1; the
codec itself is outside this module). -/
def unpackedC1 : Unpacked :=
  { session_id := "7", user_id := user42.user_id, ip := "10.0.0.1",
    issued_at := 100, expires_at := 100 + 3600, capabilities := "6" }

/-! Helper lemmas shared by the claim theorems. -/

/-- The authoritative check as a proposition. -/
lemma authExpired_eq_true_iff (r : DBSession) (t : Int) :
    authExpired r t = true ↔ (r.end_time ≠ 0 ∧ r.end_time < t) := by
  simp [authExpired]

/-- `setEnd` never changes which rows match a `session_id` predicate. -/
lemma countP_setEnd (l : List DBSession) (sid : String) (e : Int) :
    (setEnd l sid e).countP (fun r => r.session_id == sid) =
      l.countP (fun r => r.session_id == sid) := by
  induction l with
  | nil => rfl
  | cons s rest ih =>
    by_cases h : (s.session_id == sid) = true
    · simp [setEnd, h, List.countP_cons]
    · simp only [Bool.not_eq_true] at h
      simp [setEnd, h, List.countP_cons, ih]

/-- In a store where at most one row carries `sid`, every row of
`setEnd l sid e` that carries `sid` has end time `e`. -/
lemma mem_setEnd_end {l : List DBSession} {sid : String} {e : Int}
    {r : DBSession}
    (hcount : l.countP (fun r => r.session_id == sid) ≤ 1)
    (hmem : r ∈ setEnd l sid e) (hsid : r.session_id = sid) :
    r.end_time = e := by
  induction l with
  | nil => simp [setEnd] at hmem
  | cons s rest ih =>
    by_cases h : (s.session_id == sid) = true
    · simp only [setEnd, h, if_true] at hmem
      rcases List.mem_cons.mp hmem with hr | hr
      · subst hr; rfl
      · exfalso
        have hc := List.countP_cons (fun r => r.session_id == sid) s rest
        rw [hc] at hcount
        simp only [h, if_true] at hcount
        have hz : rest.countP (fun r => r.session_id == sid) = 0 := by omega
        exact (List.countP_eq_zero.mp hz) r hr (by simp [hsid])
    · simp only [Bool.not_eq_true] at h
      simp only [setEnd, h, Bool.false_eq_true, if_false] at hmem
      rcases List.mem_cons.mp hmem with hr | hr
      · exfalso; subst hr; simp [hsid] at h
      · refine ih ?_ hr
        have hc := List.countP_cons (fun r => r.session_id == sid) s rest
        rw [hc] at hcount
        simp only [h, Bool.false_eq_true, if_false, Nat.add_zero] at hcount
        exact hcount

/-- A successful join-fetch returns the first session row matching the
cookie's user id and session id. -/
lemma findJoin_session {db : Store} {uid sid : String} {du : DBUser}
    {ds : DBSession} {dn : DBUserNickname}
    (h : findJoin db uid sid = some (du, ds, dn)) :
    db.sessions.find? (fun r => r.user_id == uid && r.session_id == sid) =
      some ds := by
  unfold findJoin at h
  cases hu : db.users.find? (fun r => r.user_id == uid) with
  | none => rw [hu] at h; exact absurd h (by simp)
  | some du' =>
    cases hs : db.sessions.find?
        (fun r => r.user_id == uid && r.session_id == sid) with
    | none => rw [hu, hs] at h; exact absurd h (by simp)
    | some ds' =>
      cases hn : db.nicknames.find? (fun r => r.user_id == uid) with
      | none => rw [hu, hs, hn] at h; exact absurd h (by simp)
      | some dn' =>
        rw [hu, hs, hn] at h
        simp only [Option.some.injEq, Prod.mk.injEq] at h
        rw [h.2.1]

/-- A successful `invalidate_by_id` rewrites the end time of the first
matching session row to `now - 1` and changes nothing else. -/
lemma invalidate_by_id_ok {db : Store} {now : Int} {sid : String}
    {db' : Store} (h : invalidate_by_id db now sid = .ok db') :
    db' = { db with sessions := setEnd db.sessions sid (now - 1) } := by
  unfold invalidate_by_id at h
  cases hf : db.sessions.find? (fun r => r.session_id == sid) with
  | none => rw [hf] at h; exact absurd h (by simp)
  | some r => rw [hf] at h; simpa using h.symm

/-- `load` on a cookie the codec accepts is its decoded body. -/
lemma load_eq_decoded {unpack : String → Except String Unpacked}
    {caps : DBUser → Int} {endo : User → List (String × Int)}
    {scp : DBUser → List String} {db : Store} {now : Int} {cookie : String}
    {c : Unpacked} (hc : unpack cookie = .ok c) :
    load unpack caps endo scp db now cookie =
      loadDecoded caps endo scp db now c := by
  unfold load; rw [hc]

/-- `loadDecoded` past the fast path with a successful join is decided by
the authoritative check alone. -/
lemma loadDecoded_some {caps : DBUser → Int}
    {endo : User → List (String × Int)} {scp : DBUser → List String}
    {db : Store} {now : Int} {c : Unpacked} {du : DBUser} {ds : DBSession}
    {dn : DBUserNickname}
    (hfast : ¬ c.expires_at ≤ now)
    (hj : findJoin db c.user_id c.session_id = some (du, ds, dn)) :
    loadDecoded caps endo scp db now c =
      if authExpired ds now then
        .error (.sessionExpired ("Session " ++ c.session_id ++ " has expired"))
      else
        .ok { session_id := ds.session_id, start_time := c.issued_at,
              end_time := c.expires_at, user := mkUser c du dn,
              authorizations := mkAuths caps endo scp c du dn } := by
  unfold loadDecoded
  rw [if_neg hfast, hj]

/-- If every stored row carrying the cookie's session id fails the
authoritative check at clock `t`, `load` cannot succeed at `t`. -/
lemma load_not_ok {unpack : String → Except String Unpacked}
    {caps : DBUser → Int} {endo : User → List (String × Int)}
    {scp : DBUser → List String} {db : Store} {t : Int} {cookie : String}
    {c : Unpacked}
    (hc : unpack cookie = .ok c)
    (hexp : ∀ r ∈ db.sessions, r.session_id = c.session_id →
      authExpired r t = true) :
    ∀ s : Session, load unpack caps endo scp db t cookie ≠ .ok s := by
  intro s
  have hl : load unpack caps endo scp db t cookie =
      loadDecoded caps endo scp db t c := by
    unfold load; rw [hc]
  rw [hl]
  unfold loadDecoded
  by_cases hfast : c.expires_at ≤ t
  · simp [hfast]
  · rw [if_neg hfast]
    cases hj : findJoin db c.user_id c.session_id with
    | none => simp
    | some triple =>
      obtain ⟨du, ds, dn⟩ := triple
      have hfind := findJoin_session hj
      have hpred := List.find?_some hfind
      have hmem := List.mem_of_find?_eq_some hfind
      simp only [Bool.and_eq_true, beq_iff_eq] at hpred
      have hA : authExpired ds t = true := hexp ds hmem hpred.2
      simp [hA]

/-! Claim theorems. -/

/-- Claim C2 (code bug): the claim states that a structurally undecodable
cookie makes `load` raise `UnknownSession` and never a raw `InvalidCookie`
fault.  The code disagrees: `load` calls `cookies.unpack` (sessions.py:65)
with no handler, so on a cookie the codec rejects the `InvalidCookie` fault
propagates to the caller unchanged — contradicting the claim and the
function's own docstring, which lists only `SessionExpired` and
`UnknownSession` as its faults.  Here the run on such a cookie ends in the
propagated `invalidCookie` fault. -/
theorem C2_load_propagates_invalid_cookie :
    load unpackFail caps0 endors0 scopes0 sampleStore 200 "garbage" =
      .error (.invalidCookie "malformed cookie") := rfl

/-- Claim C6: when the cookie decode fails with `InvalidCookie`,
`invalidate` raises `UnknownSession` chained from that decode failure; on a
successful decode it delegates to `invalidate_by_id` with the decoded
session id. -/
theorem C6_invalidate_decode (unpack : String → Except String Unpacked)
    (db : Store) (now : Int) (cookie : String) :
    (∀ m, unpack cookie = .error m →
      invalidate unpack db now cookie =
        .error (.unknownSession "No such session" (some m))) ∧
    (∀ c, unpack cookie = .ok c →
      invalidate unpack db now cookie =
        invalidate_by_id db now c.session_id) := by
  constructor
  · intro m h; unfold invalidate; rw [h]
  · intro c h; unfold invalidate; rw [h]

/-- Witness for C6: under a concrete codec the cookie `"bad"` fails decode
and invalidation surfaces `UnknownSession` chained from the decode fault,
while `"good"` decodes to session 7 and the call equals
`invalidate_by_id` on `"7"`. -/
theorem C6_invalidate_decode_witness :
    invalidate unpackMixed sampleStore 10 "bad" =
      .error (.unknownSession "No such session" (some "broken")) ∧
    invalidate unpackMixed sampleStore 10 "good" =
      invalidate_by_id sampleStore 10 "7" :=
  ⟨(C6_invalidate_decode unpackMixed sampleStore 10 "bad").1 "broken" rfl,
   (C6_invalidate_decode unpackMixed sampleStore 10 "good").2 unpacked7 rfl⟩

/-- Claim C7: `create` raises `SessionCreationFailed` on a null user; a
persistence fault is wrapped as `SessionCreationFailed` with its message
preserved as cause; otherwise `create` succeeds and returns a populated
`Session` with server-computed times. -/
theorem C7_create_faults (auths : Authorizations) (ip rh tc : String)
    (now duration : Int) (db : Store) (newId : String) :
    (∀ pf, create auths ip rh tc none now duration db newId pf =
      .error (.sessionCreationFailed "Legacy sessions require a user")) ∧
    (∀ u m, create auths ip rh tc (some u) now duration db newId (some m) =
      .error (.sessionCreationFailed ("Failed to create: " ++ m))) ∧
    (∀ u, ∃ st, create auths ip rh tc (some u) now duration db newId none =
      .ok (st, { session_id := newId, start_time := now,
                 end_time := now + duration, user := u,
                 authorizations := auths })) :=
  ⟨fun _ => rfl, fun _ _ => rfl, fun _ => ⟨_, rfl⟩⟩

/-- Claim C10: the effect of `invalidate` on the store depends only on the
decoded session id — the user id and ip fields of the cookie are discarded,
so two valid cookies naming the same session id produce the same store
update, with no ownership check. -/
theorem C10_invalidate_id_only (unpack : String → Except String Unpacked)
    (db : Store) (now : Int) (c1 c2 : String) (u1 u2 : Unpacked)
    (h1 : unpack c1 = .ok u1) (h2 : unpack c2 = .ok u2)
    (hs : u1.session_id = u2.session_id) :
    invalidate unpack db now c1 = invalidate unpack db now c2 := by
  have e1 : invalidate unpack db now c1 =
      invalidate_by_id db now u1.session_id := by
    unfold invalidate; rw [h1]
  have e2 : invalidate unpack db now c2 =
      invalidate_by_id db now u2.session_id := by
    unfold invalidate; rw [h2]
  rw [e1, e2, hs]

/-- Witness for C10: cookies `"a"` and `"b"` decode to different users
(42 vs 99) at different addresses but the same session id 7, and
invalidating either performs the identical store update. -/
theorem C10_invalidate_id_only_witness :
    invalidate unpackPair sampleStore 10 "a" =
      invalidate unpackPair sampleStore 10 "b" :=
  C10_invalidate_id_only unpackPair sampleStore 10 "a" "b"
    unpackedA unpackedB rfl rfl rfl

/-- Counterexample for C4 as stated: invalidation does not always move the
stored end time weakly earlier.  Session 7 is stored with the sentinel end
marker 0 (`create` wrote it); `invalidate_by_id` at clock 10 rewrites the
end to `10 - 1 = 9`, and `9 ≤ 0` fails — numerically the end moved later. -/
theorem C4_invalidation_end_cex :
    invalidate_by_id sampleStore 10 "7" = .ok sampleStore9 ∧
    sampleStore.sessions.map (fun r => r.end_time) = [0] ∧
    sampleStore9.sessions.map (fun r => r.end_time) = [9] ∧
    ¬ ((9 : Int) ≤ 0) :=
  ⟨rfl, rfl, rfl, by decide⟩

/-- Claim C4, amended: a successful `invalidate_by_id` at adapter clock
`now` sets the stored end of the session (unique per id) to `now - 1`,
which lies strictly before the clock; whenever the prior stored end was a
live one (`now ≤` prior end), the end strictly decreases.  From the
sentinel 0 or an already-past end the numeric value can grow, as the
counterexample shows. -/
theorem C4_invalidation_end_amended (db db' : Store) (now : Int)
    (sid : String)
    (hcount : db.sessions.countP (fun r => r.session_id == sid) ≤ 1)
    (h : invalidate_by_id db now sid = .ok db') :
    (∀ r' ∈ db'.sessions, r'.session_id = sid →
      r'.end_time = now - 1 ∧ r'.end_time < now) ∧
    (∀ r ∈ db.sessions, r.session_id = sid → now ≤ r.end_time →
      ∀ r' ∈ db'.sessions, r'.session_id = sid →
        r'.end_time < r.end_time) := by
  have hdb := invalidate_by_id_ok h
  subst hdb
  constructor
  · intro r' hm hs
    have he := mem_setEnd_end hcount hm hs
    exact ⟨he, by omega⟩
  · intro r _ _ hle r' hm' hs'
    have he := mem_setEnd_end hcount hm' hs'
    omega

/-- Witness for C4 (amended): session 7 stored with live end 100 is
invalidated at clock 50; the stored end becomes `49 = 50 - 1 < 50`, and it
strictly decreased from 100. -/
theorem C4_invalidation_end_witness :
    (∀ r' ∈ storeEnd49.sessions, r'.session_id = "7" →
      r'.end_time = 50 - 1 ∧ r'.end_time < 50) ∧
    (∀ r ∈ storeEnd100.sessions, r.session_id = "7" → 50 ≤ r.end_time →
      ∀ r' ∈ storeEnd49.sessions, r'.session_id = "7" →
        r'.end_time < r.end_time) :=
  C4_invalidation_end_amended storeEnd100 storeEnd49 50 "7"
    (by decide) rfl

/-- Claim C8: every successful `load` returns a `Session` whose start time
is the issued-at decoded from the cookie and whose end time is the
expires-at decoded from the cookie, regardless of the timestamps in the
stored row — the store is consulted only for validity. -/
theorem C8_load_cookie_timestamps
    (unpack : String → Except String Unpacked) (caps : DBUser → Int)
    (endo : User → List (String × Int)) (scp : DBUser → List String)
    (db : Store) (now : Int) (cookie : String) (c : Unpacked) (s : Session)
    (hc : unpack cookie = .ok c)
    (h : load unpack caps endo scp db now cookie = .ok s) :
    s.start_time = c.issued_at ∧ s.end_time = c.expires_at := by
  rw [load_eq_decoded hc] at h
  by_cases hfast : c.expires_at ≤ now
  · unfold loadDecoded at h
    rw [if_pos hfast] at h
    exact absurd h (by simp)
  · cases hj : findJoin db c.user_id c.session_id with
    | none =>
      unfold loadDecoded at h
      rw [if_neg hfast, hj] at h
      exact absurd h (by simp)
    | some triple =>
      obtain ⟨du, ds, dn⟩ := triple
      rw [loadDecoded_some hfast hj] at h
      by_cases hA : authExpired ds now = true
      · rw [if_pos hA] at h; exact absurd h (by simp)
      · rw [if_neg hA] at h
        simp only [Except.ok.injEq] at h
        subst h
        exact ⟨rfl, rfl⟩

/-- Witness for C8: the concrete successful `load` of session 7 returns
the cookie's issued-at 100 and expires-at 3700, although the stored row
says start 100 and end 0. -/
theorem C8_load_cookie_timestamps_witness :
    createdSession.start_time = unpacked7.issued_at ∧
    createdSession.end_time = unpacked7.expires_at :=
  C8_load_cookie_timestamps unpackOk7 caps0 endors0 scopes0 sampleStore
    200 "c" unpacked7 createdSession rfl rfl

/-- Counterexample for C3 as stated: the claim says a stored end time
exactly equal to the adapter clock is not active.  The check
(sessions.py:88) uses strict `<`, so at clock 100 a row with stored end 100
passes as active: `load` succeeds instead of raising `SessionExpired`. -/
theorem C3_boundary_cex :
    authExpired { dbSess7 with end_time := 100 } 100 = false ∧
    load unpackOk7 caps0 endors0 scopes0 storeEnd100 100 "c" =
      .ok createdSession :=
  ⟨rfl, rfl⟩

/-- Claim C3, amended: for a session row reached in `load` (cookie decoded,
fast-path passed, join found), `load` raises `SessionExpired` exactly when
the stored end marker is not the sentinel 0 AND the stored end time is
strictly less than the store-adapter clock; a stored end time exactly equal
to the clock is still active, and then `load` returns the assembled
session. -/
theorem C3_authoritative_check_amended
    (unpack : String → Except String Unpacked) (caps : DBUser → Int)
    (endo : User → List (String × Int)) (scp : DBUser → List String)
    (db : Store) (now : Int) (cookie : String) (c : Unpacked) (du : DBUser)
    (ds : DBSession) (dn : DBUserNickname)
    (hc : unpack cookie = .ok c)
    (hfast : now < c.expires_at)
    (hj : findJoin db c.user_id c.session_id = some (du, ds, dn)) :
    (load unpack caps endo scp db now cookie =
        .error (.sessionExpired ("Session " ++ c.session_id ++ " has expired"))
      ↔ (ds.end_time ≠ 0 ∧ ds.end_time < now)) ∧
    (ds.end_time = now →
      load unpack caps endo scp db now cookie =
        .ok { session_id := ds.session_id, start_time := c.issued_at,
              end_time := c.expires_at, user := mkUser c du dn,
              authorizations := mkAuths caps endo scp c du dn }) := by
  have hfast' : ¬ c.expires_at ≤ now := not_le.mpr hfast
  rw [load_eq_decoded hc, loadDecoded_some hfast' hj]
  constructor
  · by_cases hA : authExpired ds now = true
    · rw [if_pos hA]
      exact ⟨fun _ => (authExpired_eq_true_iff ds now).mp hA, fun _ => rfl⟩
    · rw [if_neg hA]
      exact ⟨fun h => absurd h (by simp),
             fun h => absurd ((authExpired_eq_true_iff ds now).mpr h) hA⟩
  · intro he
    have hA : ¬ authExpired ds now = true := by
      simp [authExpired, he]
    rw [if_neg hA]

/-- Witness for C3 (amended) at the boundary input: session 7 stored with
end time 100 checked at clock 100 — `load` raising `SessionExpired` is
equivalent to the (false) condition `100 ≠ 0 ∧ 100 < 100`, and since the
stored end equals the clock, `load` returns the assembled session. -/
theorem C3_authoritative_check_witness :
    (load unpackOk7 caps0 endors0 scopes0 storeEnd100 100 "c" =
        .error (.sessionExpired
          ("Session " ++ unpacked7.session_id ++ " has expired"))
      ↔ (({ dbSess7 with end_time := 100 } : DBSession).end_time ≠ 0 ∧
         ({ dbSess7 with end_time := 100 } : DBSession).end_time < 100)) ∧
    (({ dbSess7 with end_time := 100 } : DBSession).end_time = 100 →
      load unpackOk7 caps0 endors0 scopes0 storeEnd100 100 "c" =
        .ok { session_id :=
                ({ dbSess7 with end_time := 100 } : DBSession).session_id,
              start_time := unpacked7.issued_at,
              end_time := unpacked7.expires_at,
              user := mkUser unpacked7 dbUser42 dbNick42,
              authorizations :=
                mkAuths caps0 endors0 scopes0 unpacked7 dbUser42 dbNick42 }) :=
  C3_authoritative_check_amended unpackOk7 caps0 endors0 scopes0
    storeEnd100 100 "c" unpacked7 dbUser42
    { dbSess7 with end_time := 100 } dbNick42 rfl (by decide) rfl

/-- Claim C9: a successful `create` appends a session row whose stored end
time is the sentinel 0 — not start + duration — while the returned
`Session` value carries end time = start + configured duration; with the
sentinel stored, the authoritative check treats the session as active at
every clock reading until an invalidation writes a real end time. -/
theorem C9_create_stores_sentinel (auths : Authorizations)
    (ip rh tc : String) (u : User) (now duration : Int) (db : Store)
    (newId : String) (st : Store) (sess : Session)
    (h : create auths ip rh tc (some u) now duration db newId none =
      .ok (st, sess)) :
    st.sessions = db.sessions ++
      [{ session_id := newId, user_id := u.user_id, last_reissue := now,
         start_time := now, end_time := 0 }] ∧
    sess.start_time = now ∧ sess.end_time = now + duration ∧
    ∀ t : Int,
      authExpired
        { session_id := newId, user_id := u.user_id,
          last_reissue := now, start_time := now, end_time := 0 } t = false := by
  unfold create at h
  simp only [Except.ok.injEq, Prod.mk.injEq] at h
  obtain ⟨hst, hsess⟩ := h
  subst hst
  subst hsess
  refine ⟨rfl, rfl, rfl, fun t => ?_⟩
  simp [authExpired]

/-- Witness for C9: the concrete `create` run (user 42, start 100, duration
3600) stores session row 7 with end time 0 while returning end time
100 + 3600. -/
theorem C9_create_stores_sentinel_witness :
    createdStore.sessions = emptyStore.sessions ++
      [{ session_id := "7", user_id := user42.user_id, last_reissue := 100,
         start_time := 100, end_time := 0 }] ∧
    createdSession.start_time = 100 ∧
    createdSession.end_time = 100 + 3600 ∧
    ∀ t : Int,
      authExpired
        { session_id := "7", user_id := user42.user_id,
          last_reissue := 100, start_time := 100, end_time := 0 } t = false :=
  C9_create_stores_sentinel auths0 "10.0.0.1" "host" "" user42 100 3600
    emptyStore "7" createdStore createdSession rfl

/-- Counterexample for C1 as stated: the claim says the authoritative
store check raises `SessionExpired` when `load` runs D+1 seconds after the
start of a session created with duration D.  A session created at 100 with
D = 3600 is stored with the sentinel end marker 0 (not start + D), so at
clock 3701 the authoritative check still reports it unexpired, and a load
reaching the store check at 3701 succeeds. -/
theorem C1_expiry_ordering_cex :
    create auths0 "10.0.0.1" "host" "" (some user42) 100 3600 emptyStore "7"
      none = .ok (createdStore, createdSession) ∧
    createdStore.sessions = [dbSess7] ∧
    authExpired dbSess7 (100 + 3600 + 1) = false ∧
    (load
      (fun _ => .ok
        { session_id := "7", user_id := "42", ip := "10.0.0.1",
          issued_at := 100, expires_at := 999999, capabilities := "6" })
      caps0 endors0 scopes0 createdStore (100 + 3600 + 1) "").isOk = true :=
  ⟨rfl, rfl, rfl, rfl⟩

/-- Claim C1, amended: for a session created with duration D at start S,
`load` with the session's cookie returns the Active session at S + D - 1
and raises `SessionExpired` at S + D + 1 — but the S + D + 1 rejection
comes from the cookie fast-path check (the cookie's expires-at is
S + D), not from the authoritative store check: `create` stores the
sentinel end marker 0, so the authoritative check reports the session
unexpired at every clock reading. -/
theorem C1_expiry_ordering_amended (auths : Authorizations)
    (ip rh tc cap : String) (u : User) (ur : DBUser) (nr : DBUserNickname)
    (S D : Int) (newId : String) (st : Store) (sess : Session)
    (caps : DBUser → Int) (endo : User → List (String × Int))
    (scp : DBUser → List String)
    (hur : ur.user_id = u.user_id) (hnr : nr.user_id = u.user_id)
    (_hD : 0 < D)
    (hcr : create auths ip rh tc (some u) S D
      { sessions := [], audits := [], users := [ur], nicknames := [nr] }
      newId none = .ok (st, sess)) :
    st =
      { sessions :=
          [{ session_id := newId, user_id := u.user_id, last_reissue := S,
             start_time := S, end_time := 0 }],
        audits :=
          [{ session_id := newId, ip_addr := ip, remote_host := rh,
             tracking_cookie := tc }],
        users := [ur], nicknames := [nr] } ∧
    (∀ t : Int,
      authExpired
        { session_id := newId, user_id := u.user_id, last_reissue := S,
          start_time := S, end_time := 0 } t = false) ∧
    load
      (fun _ => .ok
        { session_id := newId, user_id := u.user_id, ip := ip,
          issued_at := S, expires_at := S + D, capabilities := cap })
      caps endo scp
      { sessions :=
          [{ session_id := newId, user_id := u.user_id, last_reissue := S,
             start_time := S, end_time := 0 }],
        audits :=
          [{ session_id := newId, ip_addr := ip, remote_host := rh,
             tracking_cookie := tc }],
        users := [ur], nicknames := [nr] }
      (S + D - 1) "" =
      .ok { session_id := newId, start_time := S, end_time := S + D,
            user := mkUser
              { session_id := newId, user_id := u.user_id, ip := ip,
                issued_at := S, expires_at := S + D, capabilities := cap }
              ur nr,
            authorizations := mkAuths caps endo scp
              { session_id := newId, user_id := u.user_id, ip := ip,
                issued_at := S, expires_at := S + D, capabilities := cap }
              ur nr } ∧
    load
      (fun _ => .ok
        { session_id := newId, user_id := u.user_id, ip := ip,
          issued_at := S, expires_at := S + D, capabilities := cap })
      caps endo scp
      { sessions :=
          [{ session_id := newId, user_id := u.user_id, last_reissue := S,
             start_time := S, end_time := 0 }],
        audits :=
          [{ session_id := newId, ip_addr := ip, remote_host := rh,
             tracking_cookie := tc }],
        users := [ur], nicknames := [nr] }
      (S + D + 1) "" =
      .error (.sessionExpired ("Session " ++ newId ++ " has expired")) := by
  unfold create at hcr
  simp only [Except.ok.injEq, Prod.mk.injEq] at hcr
  obtain ⟨hst, hsess⟩ := hcr
  refine ⟨hst.symm, fun t => by simp [authExpired], ?_, ?_⟩
  · have hend : ¬ ((S + D : Int) ≤ S + D - 1) := by omega
    simp [load, loadDecoded, findJoin, List.find?, authExpired, hur, hnr,
      hend]
  · have hend : ((S + D : Int) ≤ S + D + 1) := by omega
    simp [load, loadDecoded, hend]

/-- Witness for C1 (amended): the concrete created session (start 100,
duration 3600): `load` returns the Active session at clock 3699 and raises
`SessionExpired` at clock 3701, while the stored row keeps the sentinel end
marker 0 and never trips the authoritative check. -/
theorem C1_expiry_ordering_witness :
    createdStore =
      { sessions := [dbSess7], audits := [auditRow7], users := [dbUser42],
        nicknames := [dbNick42] } ∧
    (∀ t : Int, authExpired dbSess7 t = false) ∧
    load (fun _ => .ok unpackedC1) caps0 endors0 scopes0 createdStore
      (100 + 3600 - 1) "" =
      .ok { session_id := "7", start_time := 100, end_time := 100 + 3600,
            user := mkUser unpackedC1 dbUser42 dbNick42,
            authorizations :=
              mkAuths caps0 endors0 scopes0 unpackedC1 dbUser42 dbNick42 } ∧
    load (fun _ => .ok unpackedC1) caps0 endors0 scopes0 createdStore
      (100 + 3600 + 1) "" =
      .error (.sessionExpired ("Session " ++ "7" ++ " has expired")) :=
  C1_expiry_ordering_amended auths0 "10.0.0.1" "host" "" "6" user42
    dbUser42 dbNick42 100 3600 "7" createdStore createdSession caps0
    endors0 scopes0 rfl rfl (by decide) rfl

/-- Claim C5: once one `invalidate_by_id` call on a session id has
committed at clock t0 ≥ 2, the stored row carrying that id fails the
authoritative check at every later clock t, and no later `load` of a
cookie referencing that session succeeds — including when
`invalidate_by_id` is called a second time in between (at t1, t0 ≤ t1 ≤ t).
The bound 2 ≤ t0 records that the adapter clock (epoch seconds) is past
second 1, which every real run satisfies; at t0 = 1 the written end marker
`t0 - 1 = 0` would coincide with the sentinel. -/
theorem C5_invalidation_permanent (db db1 db2 : Store) (t0 t1 t : Int)
    (sid : String) (unpack : String → Except String Unpacked)
    (caps : DBUser → Int) (endo : User → List (String × Int))
    (scp : DBUser → List String) (cookie : String) (c : Unpacked)
    (ht0 : 2 ≤ t0) (h01 : t0 ≤ t1) (h1t : t1 ≤ t)
    (hcount : db.sessions.countP (fun r => r.session_id == sid) ≤ 1)
    (hi1 : invalidate_by_id db t0 sid = .ok db1)
    (hi2 : invalidate_by_id db1 t1 sid = .ok db2)
    (hc : unpack cookie = .ok c) (hsid : c.session_id = sid) :
    (∀ r ∈ db1.sessions, r.session_id = sid → authExpired r t = true) ∧
    (∀ r ∈ db2.sessions, r.session_id = sid → authExpired r t = true) ∧
    (∀ s : Session, load unpack caps endo scp db1 t cookie ≠ .ok s) ∧
    (∀ s : Session, load unpack caps endo scp db2 t cookie ≠ .ok s) := by
  have h1 := invalidate_by_id_ok hi1
  subst h1
  have h2 := invalidate_by_id_ok hi2
  subst h2
  have hcount1 : (setEnd db.sessions sid (t0 - 1)).countP
      (fun r => r.session_id == sid) ≤ 1 := by
    rw [countP_setEnd]; exact hcount
  have hall1 : ∀ r ∈ setEnd db.sessions sid (t0 - 1), r.session_id = sid →
      authExpired r t = true := by
    intro r hm hs
    have he := mem_setEnd_end hcount hm hs
    rw [authExpired_eq_true_iff]
    omega
  have hall2 : ∀ r ∈ setEnd (setEnd db.sessions sid (t0 - 1)) sid (t1 - 1),
      r.session_id = sid → authExpired r t = true := by
    intro r hm hs
    have he := mem_setEnd_end hcount1 hm hs
    rw [authExpired_eq_true_iff]
    omega
  exact ⟨hall1, hall2,
    load_not_ok hc (fun r hm hs => hall1 r hm (hs.trans hsid)),
    load_not_ok hc (fun r hm hs => hall2 r hm (hs.trans hsid))⟩

/-- Witness for C5: session 7 invalidated at clock 10 and again at clock
20; at clock 30 its row fails the authoritative check in both resulting
stores, and `load` of its cookie cannot succeed against either. -/
theorem C5_invalidation_permanent_witness :
    (∀ r ∈ sampleStore9.sessions, r.session_id = "7" →
      authExpired r 30 = true) ∧
    (∀ r ∈ sampleStore19.sessions, r.session_id = "7" →
      authExpired r 30 = true) ∧
    (∀ s : Session,
      load unpackOk7 caps0 endors0 scopes0 sampleStore9 30 "c" ≠ .ok s) ∧
    (∀ s : Session,
      load unpackOk7 caps0 endors0 scopes0 sampleStore19 30 "c" ≠ .ok s) :=
  C5_invalidation_permanent sampleStore sampleStore9 sampleStore19 10 20 30
    "7" unpackOk7 caps0 endors0 scopes0 "c" unpacked7
    (by decide) (by decide) (by decide) (by decide) rfl rfl rfl rfl

end ArxivAuth
